import Mathlib

/-!
Shallow embedding of the mega-repository generator
(`examples/mega-repos/generate_mega_repos.py`).

Machine randomness (`random.randint`, `random.choice`, `random.random`,
`random.sample`) is modelled by explicit draw parameters: `randint a b d`
reduces an arbitrary draw `d` into the inclusive range `[a, b]`, and
`choice l default d` picks an element of `l` by index `d % l.length`.
Timestamps are modelled as whole hours on the synthetic timeline, since the
generator only ever adds whole days (`timedelta(days=…)`) and whole hours
(`timedelta(hours=random.randint(1, 48))`) to `datetime.now()`.
-/

/-- Model of Python `random.randint a b` (inclusive on both ends):
an arbitrary draw is reduced modulo the size of the range. -/
def randint (a b draw : Nat) : Nat := a + draw % (b - a + 1)

/-- Model of Python `random.choice` from a list (the lists used by the
generator are non-empty constants, so the default is never relevant). -/
def choice {α : Type} (l : List α) (d : α) (draw : Nat) : α :=
  l.getD (draw % l.length) d

/-- Boolean test that `pre` is a prefix of `s`, on the character lists. -/
def startsWithStr (pre s : String) : Bool := pre.data.isPrefixOf s.data

/-- Model of the Python substring containment `needle in haystack`. -/
def hasSub (needle : List Char) : List Char → Bool
  | [] => needle.isEmpty
  | c :: t => needle.isPrefixOf (c :: t) || hasSub needle t

/-- String-level substring containment, modelling Python `needle in haystack`. -/
def containsStr (haystack needle : String) : Bool := hasSub needle.data haystack.data

/-! ## CodeSynthesizer (`_generate_python_code`, `_generate_js_code`,
`_generate_java_code`)

Each generator builds a list of source lines (the Python code joins them
with a newline at the end; the joining is irrelevant to line-count claims,
so the line list itself is the model).  The 10%-probability fault injection
(`random.random() < 0.1`) is modelled by a Boolean oracle `bug : Nat → Bool`
giving the outcome of the draw for the `i`-th emitted unit. -/

/-- Fixed tail of the Python module header emitted by `_generate_python_code`. -/
def pyHeaderRest : List String :=
  ["\"\"\"", "",
   "import logging",
   "import typing",
   "from datetime import datetime",
   "",
   "logger = logging.getLogger(__name__)",
   ""]

/-- Module header of `_generate_python_code` (docstring + imports + logger). -/
def pyHeader (code_type : String) : List String :=
  "\"\"\"" :: ("Module for " ++ code_type) :: pyHeaderRest

/-- Body of one Python class emitted by `_generate_python_code`, below the
`class` line and the class docstring; `bug` is the outcome of the
fault-injection draw for this class. -/
def pyClassBlockRest (bug : Bool) : List String :=
  ["    ",
   "    def __init__(self, config: dict):",
   "        self.config = config",
   "        self.initialized = False",
   "    ",
   "    def initialize(self):",
   "        \"\"\"Initialize component\"\"\"",
   "        logger.info(\"Initializing component\")",
   "        self.initialized = True",
   "    ",
   "    def process(self, data: typing.Any) -> typing.Any:",
   "        \"\"\"Process data\"\"\"",
   "        if not self.initialized:",
   "            raise RuntimeError(\"Component not initialized\")",
   "        ",
   "        result = self._transform(data)",
   "        return result",
   "    ",
   "    def _transform(self, data: typing.Any) -> typing.Any:",
   "        \"\"\"Internal transformation logic\"\"\"",
   "        # TODO: Implement transformation",
   (if bug then "        return data + None  # BUG: TypeError"
    else "        return data"),
   ""]

/-- One Python class block of `_generate_python_code`. -/
def pyClassBlock (i : Nat) (bug : Bool) : List String :=
  ("class Component" ++ (toString i ++ ":")) ::
  ("    \"\"\"Class for component " ++ (toString i ++ "\"\"\"")) ::
  pyClassBlockRest bug

/-- One Python free-function block of `_generate_python_code`. -/
def pyFunctionBlock (i : Nat) : List String :=
  ("def function_" ++ (toString i ++ "(param1: str, param2: int = 0) -> dict:")) ::
  ("    \"\"\"Function " ++ (toString i ++ " description\"\"\"")) ::
  ["    result = \x7b",
   "        \"param1\": param1,",
   "        \"param2\": param2,",
   "        \"timestamp\": datetime.now().isoformat()",
   "    \x7d",
   "    return result",
   ""]

/-- Model of `RepoGenerator._generate_python_code`: header, then
`max 1 (lines / 50)` class blocks, then `max 1 (lines / 30)` function
blocks. -/
def generate_python_code (lines : Nat) (code_type : String) (bug : Nat → Bool) :
    List String :=
  pyHeader code_type ++
  (List.range (max 1 (lines / 50))).flatMap (fun i => pyClassBlock i (bug i)) ++
  (List.range (max 1 (lines / 30))).flatMap pyFunctionBlock

/-- Header lines of `_generate_js_code` (import style depends on TypeScript). -/
def jsHeader (is_ts : Bool) : List String :=
  (if is_ts then "import \x7b Component \x7d from \"./types\";"
   else "const Component = require(\"./component\");") :: [""]

/-- Opening lines of one TypeScript class block of `_generate_js_code`. -/
def jsClassHeadTs (i : Nat) : List String :=
  ("export class Service" ++ (toString i ++ " implements Component \x7b")) ::
  ["  private initialized: boolean = false;",
   "  private config: Record<string, any>;",
   "",
   "  constructor(config: Record<string, any>) \x7b"]

/-- Opening lines of one JavaScript class block of `_generate_js_code`. -/
def jsClassHeadJs (i : Nat) : List String :=
  ("class Service" ++ (toString i ++ " \x7b")) ::
  ["  constructor(config) \x7b"]

/-- Body shared by the JS and TS class blocks of `_generate_js_code`;
`bug` is the outcome of the fault-injection draw for this class. -/
def jsClassBlockRest (bug : Bool) : List String :=
  ["    this.config = config;",
   "  \x7d",
   "",
   "  async initialize() \x7b",
   "    console.log(\"Initializing service\");",
   "    this.initialized = true;",
   "  \x7d",
   "",
   "  async process(data) \x7b",
   "    if (!this.initialized) \x7b",
   "      throw new Error(\"Service not initialized\");",
   "    \x7d",
   "    const result = await this.transform(data);",
   "    return result;",
   "  \x7d",
   "",
   "  async transform(data) \x7b",
   (if bug then "    return data.nonexistent.property;  // BUG: Cannot read property"
    else "    return \x7b ...data, processed: true \x7d;"),
   "  \x7d",
   "\x7d",
   ""]

/-- Model of `RepoGenerator._generate_js_code`: header, then `max 1 (lines / 50)`
class blocks; no free functions are emitted. -/
def generate_js_code (is_ts : Bool) (lines : Nat) (bug : Nat → Bool) : List String :=
  jsHeader is_ts ++
  (List.range (max 1 (lines / 50))).flatMap
    (fun i => (if is_ts then jsClassHeadTs i else jsClassHeadJs i) ++ jsClassBlockRest (bug i))

/-- Model of `RepoGenerator._generate_java_code`: a fixed single-class file; the
requested line budget and role tag are ignored. -/
def generate_java_code (lines : Nat) (code_type : String) : List String :=
  ["package com.example.app;",
   "",
   "import java.util.*;",
   "import java.time.LocalDateTime;",
   "",
   "public class Component \x7b",
   "    private Map<String, Object> config;",
   "    private boolean initialized;",
   "",
   "    public Component(Map<String, Object> config) \x7b",
   "        this.config = config;",
   "        this.initialized = false;",
   "    \x7d",
   "",
   "    public void initialize() \x7b",
   "        System.out.println(\"Initializing component\");",
   "        this.initialized = true;",
   "    \x7d",
   "",
   "    public Map<String, Object> process(Object data) \x7b",
   "        if (!initialized) \x7b",
   "            throw new RuntimeException(\"Component not initialized\");",
   "        \x7d",
   "        return transform(data);",
   "    \x7d",
   "",
   "    private Map<String, Object> transform(Object data) \x7b",
   "        Map<String, Object> result = new HashMap<>();",
   "        result.put(\"data\", data);",
   "        result.put(\"timestamp\", LocalDateTime.now());",
   "        return result;",
   "    \x7d",
   "\x7d"]

/-- Recognizer for the Python class-definition lines emitted by
`_generate_python_code` (they are exactly the lines `class Component{i}:`). -/
def isPyClassDef (l : String) : Bool := startsWithStr "class Component" l

/-- Recognizer for the Python free-function lines emitted by
`_generate_python_code` (the lines `def function_{i}(…)`). -/
def isPyFunDef (l : String) : Bool := startsWithStr "def function_" l

/-- Recognizer for the JS/TS class-definition lines emitted by
`_generate_js_code` (`class Service{i} …` or `export class Service{i} …`). -/
def isJsClassDef (l : String) : Bool :=
  startsWithStr "class Service" l || startsWithStr "export class Service" l

/-- Recognizer for Java class-definition lines of `_generate_java_code`. -/
def isJavaClassDef (l : String) : Bool := startsWithStr "public class " l

/-! ## StructureGenerator (`_generate_structure` and the per-archetype
structure builders) -/

/-- The closed set of structural archetypes dispatched by
`_generate_structure`. -/
inductive Archetype where
  | web
  | microservice
  | cli
  | library
  | mobile
  | game
  | data
  | enterprise
deriving DecidableEq, Repr

/-- Model of `RepoGenerator._generate_structure`: archetype dispatch by substring
matching, in source order.  The first rule tests only the template name;
the later rules test the category (and, for `lib`, also the template). -/
def generate_structure (category template : String) : Archetype :=
  if containsStr template "web" || containsStr template "framework" then .web
  else if containsStr category "microservice" then .microservice
  else if containsStr category "cli" then .cli
  else if containsStr category "lib" || containsStr template "lib" then .library
  else if containsStr category "mobile" then .mobile
  else if containsStr category "game" then .game
  else if containsStr category "data" then .data
  else .enterprise

/-- A filesystem effect performed while building a repository skeleton:
either a directory creation (`Path.mkdir`) or a file write
(`_write_file` / `_write_code_file`, recorded by target path; the written
content comes from the code synthesizer and is irrelevant to the
structural claims). -/
inductive FsOp where
  | mkdir (path : String)
  | write (path : String)
deriving DecidableEq, Repr

/-- Whether a filesystem effect is a directory creation. -/
def FsOp.isMkdir : FsOp → Bool
  | .mkdir _ => true
  | .write _ => false

/-- Model of `RepoGenerator._create_cli_files`: four fixed code files plus
`randint(10, 30)` test files (per-file line budgets feed only the written
content, which is not part of the effect trace). -/
def create_cli_files (ext : String) (numTestsDraw : Nat) : List FsOp :=
  [FsOp.write ("cmd/main" ++ ext),
   FsOp.write ("internal/commands" ++ ext),
   FsOp.write ("internal/config" ++ ext),
   FsOp.write ("pkg/utils" ++ ext)] ++
  (List.range (randint 10 30 numTestsDraw)).map
    (fun i => FsOp.write ("tests/test" ++ (toString i ++ ext)))

/-- Model of `RepoGenerator._generate_cli_structure`: the four CLI directories,
followed by the file writes performed by `_create_cli_files`. -/
def generate_cli_structure (ext : String) (numTestsDraw : Nat) : List FsOp :=
  [FsOp.mkdir "cmd", FsOp.mkdir "internal", FsOp.mkdir "pkg", FsOp.mkdir "tests"] ++
  create_cli_files ext numTestsDraw

/-! ## SpecSelector (`RepoGenerator.__init__`) -/

/-- The commit-count selection `random.randint(100, 500)` of
`RepoGenerator.__init__`. -/
def select_num_commits (draw : Nat) : Nat := randint 100 500 draw

/-! ## CommitScheduler (`_create_commit_history`) -/

/-- A scheduled commit: timestamp (hours on the synthetic timeline),
message, author and the staged file paths. -/
structure Commit where
  date : Nat
  message : String
  author : String × String
  files : List String
deriving DecidableEq, Repr

/-- The file set of the fixed bootstrap commit. -/
def bootstrap_files : List String := [".gitignore", "README.md"]

/-- The fixed `(type, message-template)` table of `_create_commit_history`. -/
def commit_types : List (String × String) :=
  [("feat", "Add \x7b\x7d"),
   ("fix", "Fix bug in \x7b\x7d"),
   ("refactor", "Refactor \x7b\x7d"),
   ("docs", "Update documentation for \x7b\x7d"),
   ("test", "Add tests for \x7b\x7d"),
   ("chore", "Update dependencies")]

/-- The batch-size computation of `_create_commit_history`:
`len(all_files) // (num_commits - 10)` when `num_commits > 10`, else `1`,
then clamped below by `1`. -/
def files_per_commit (total_files num_commits : Nat) : Nat :=
  max 1 (if 10 < num_commits then total_files / (num_commits - 10) else 1)

/-- Replace the first `\x7b\x7d` placeholder, modelling the single-argument
`str.format` call on a message template. -/
def pyFormatAux (arg : String) : List Char → List Char
  | [] => []
  | '\x7b' :: '\x7d' :: rest => arg.data ++ rest
  | c :: rest => c :: pyFormatAux arg rest

/-- String-level `template.format(arg)` for the commit-message templates. -/
def pyFormat (template arg : String) : String := ⟨pyFormatAux arg template.data⟩

/-- The component label of a batch: the first path segment of the first file of the batch when the path contains `/`, else `"core"`. -/
def componentOf (path : String) : String :=
  if path.data.contains '/' then ⟨path.data.takeWhile (fun c => c != '/')⟩ else "core"

/-- Oracles for the three random draws consumed per loop iteration of
`_create_commit_history`: commit-type choice, author choice, and the
1–48 hour timestamp increment. -/
structure Draws where
  typeDraw : Nat → Nat
  authorDraw : Nat → Nat
  hourDraw : Nat → Nat

/-- The batch commit appended on iteration `k` of the scheduling loop, when
the file cursor stands at `fi` and the running clock at `cd`. -/
def mkBatchCommit (all_files : List String) (fpc : Nat)
    (contributors : List (String × String)) (dr : Draws) (k fi cd : Nat) : Commit :=
  { date := cd
    message :=
      (choice commit_types ("chore", "Update dependencies") (dr.typeDraw k)).1 ++ ": " ++
        pyFormat (choice commit_types ("chore", "Update dependencies") (dr.typeDraw k)).2
          (componentOf (((all_files.drop fi).take fpc).headD ""))
    author := choice contributors ("", "") (dr.authorDraw k)
    files := (all_files.drop fi).take fpc }

/-- The `while file_index < len(all_files) and len(commits) < self.num_commits`
loop of `_create_commit_history`, with an explicit fuel bound: `none` means
the fuel ran out while the guard still held (the Python loop would keep
iterating).  The branch on an empty slice mirrors the `if files_in_commit:`
test, under which the Python loop would spin without advancing. -/
def scheduleAux (all_files : List String) (num_commits fpc : Nat)
    (contributors : List (String × String)) (dr : Draws) :
    Nat → Nat → Nat → Nat → List Commit → Option (List Commit)
  | 0, _, fi, _, cs =>
      if fi < all_files.length ∧ cs.length < num_commits then none else some cs
  | fuel + 1, k, fi, cd, cs =>
      if fi < all_files.length ∧ cs.length < num_commits then
        if ((all_files.drop fi).take fpc).isEmpty then
          scheduleAux all_files num_commits fpc contributors dr fuel (k + 1) fi cd cs
        else
          scheduleAux all_files num_commits fpc contributors dr fuel (k + 1)
            (fi + fpc) (cd + randint 1 48 (dr.hourDraw k))
            (cs ++ [mkBatchCommit all_files fpc contributors dr k fi cd])
      else some cs

/-- The fixed bootstrap commit: dated `now − 365 days`, authored by the
primary contributor, staging exactly the baseline files. -/
def bootstrap_commit (now : Nat) (contributors : List (String × String)) : Commit :=
  { date := now - 365 * 24
    message := "Initial commit"
    author := contributors.headD ("", "")
    files := bootstrap_files }

/-- Model of `RepoGenerator._create_commit_history`: the bootstrap commit followed by
the batch commits scheduled by the loop.  `now` is the generation-time
clock in hours; the loop starts one day after the bootstrap timestamp and
is given fuel `all_files.length`, which suffices (see the termination
theorem below), so the `getD` default is never taken. -/
def create_commit_history (now : Nat) (all_files : List String) (num_commits : Nat)
    (contributors : List (String × String)) (dr : Draws) : List Commit :=
  (scheduleAux all_files num_commits (files_per_commit all_files.length num_commits)
      contributors dr all_files.length 0 0 (now - 365 * 24 + 24)
      [bootstrap_commit now contributors]).getD
    [bootstrap_commit now contributors]

/-! ## RunOrchestrator (`main`) -/

/-- One attempted repository generation, as observed at the orchestrator
boundary: the numeric identity used, the category and template tried, and
whether generation succeeded (`ok = false` is the logged ERROR path). -/
structure Attempt where
  repoId : Nat
  category : String
  template : String
  ok : Bool
deriving DecidableEq, Repr

/-- The inner `for i in range(count)` loop of `main` for one category.
`fails` tells whether the generation of a given repository id raises.  On
failure the exception is caught, the attempt is recorded, and `repo_id`
still advances; on success `total_repos` also advances and the loop breaks
once it reaches 1000. -/
def run_category (fails : Nat → Bool) (category : String) (templates : List String) :
    Nat → Nat → Nat → Nat → List Attempt → List Attempt × Nat × Nat
  | 0, _, repoId, total, acc => (acc, repoId, total)
  | n + 1, i, repoId, total, acc =>
      if fails repoId then
        run_category fails category templates n (i + 1) (repoId + 1) total
          (acc ++ [⟨repoId, category, templates.getD (i % templates.length) "", false⟩])
      else
        if 1000 ≤ total + 1 then
          (acc ++ [⟨repoId, category, templates.getD (i % templates.length) "", true⟩],
           repoId + 1, total + 1)
        else
          run_category fails category templates n (i + 1) (repoId + 1) (total + 1)
            (acc ++ [⟨repoId, category, templates.getD (i % templates.length) "", true⟩])

/-- The outer category loop of `main`: runs the quota of each category in
declaration order, stopping early only when the global total reaches 1000. -/
def run_all (fails : Nat → Bool) :
    List (String × Nat × List String) → Nat → Nat → List Attempt → List Attempt
  | [], _, _, acc => acc
  | (cat, count, templates) :: rest, repoId, total, acc =>
      if 1000 ≤ (run_category fails cat templates count 0 repoId total acc).2.2 then
        (run_category fails cat templates count 0 repoId total acc).1
      else
        run_all fails rest (run_category fails cat templates count 0 repoId total acc).2.1
          (run_category fails cat templates count 0 repoId total acc).2.2
          (run_category fails cat templates count 0 repoId total acc).1

/-- Model of `main`: the whole run starts at repository id 5001 with a zero total. -/
def main_run (fails : Nat → Bool) (cats : List (String × Nat × List String)) :
    List Attempt :=
  run_all fails cats 5001 0 []

/-! ## Concrete instances used by counterexamples and witnesses -/

/-- An all-zero draw oracle (every random draw comes out 0). -/
def zeroDraws : Draws := ⟨fun _ => 0, fun _ => 0, fun _ => 0⟩

/-- A one-element contributor subset. -/
def cexContribs : List (String × String) := [("John Smith", "john.smith@example.com")]

/-- A two-file walked manifest: `os.walk` excludes only names starting with
`.git`, so `README.md` is collected. -/
def cexFiles : List String := ["README.md", "src/app.py"]

/-- A forty-file walked manifest, for the `target_commit_count = 100`
scheduling scenario. -/
def c6_files : List String :=
  (List.range 40).map (fun i => "src/file" ++ (toString i ++ ".py"))

/-! ## Helper lemmas: string prefixes and line counting -/

theorem startsWithStr_append (p s : String) : startsWithStr p (p ++ s) = true := by
  unfold startsWithStr
  rw [String.data_append]
  rw [ List.isPrefixOf_iff_prefix]
  exact List.prefix_append _ _

theorem startsWithStr_false_of_head (p s : String) (c c' : Char)
    (hp : p.data.head? = some c) (hs : s.data.head? = some c') (hne : c ≠ c') :
    startsWithStr p s = false := by
  unfold startsWithStr
  cases hpd : p.data with
  | nil => rw [hpd] at hp; simp at hp
  | cons a t =>
    cases hsd : s.data with
    | nil => rw [hsd] at hs; simp at hs
    | cons b u =>
      rw [hpd] at hp
      rw [hsd] at hs
      simp [List.head?] at hp hs
      have hbeq : (a == b) = false := by
        rw [hp, hs]
        exact beq_eq_false_iff_ne.mpr hne
      simp [List.isPrefixOf, hbeq]

theorem countP_flatMap_range {α : Type} (f : Nat → List α) (p : α → Bool) (c : Nat)
    (h : ∀ i, (f i).countP p = c) :
    ∀ n, ((List.range n).flatMap f).countP p = n * c := by
  intro n
  induction n with
  | zero => simp
  | succ m ih =>
    rw [List.range_succ, List.flatMap_append, List.countP_append, ih]
    simp [h m]
    ring

theorem pyClassBlock_countP_class (i : Nat) (bug : Bool) :
    (pyClassBlock i bug).countP isPyClassDef = 1 := by
  have h1 : isPyClassDef ("class Component" ++ (toString i ++ ":")) = true :=
    startsWithStr_append _ _
  have h2 : isPyClassDef ("    \"\"\"Class for component " ++ (toString i ++ "\"\"\"")) = false := by
    refine startsWithStr_false_of_head _ _ 'c' ' ' rfl ?_ (by decide)
    rw [String.data_append]; rfl
  have h3 : (pyClassBlockRest bug).countP isPyClassDef = 0 := by
    cases bug <;> decide
  unfold pyClassBlock
  simp [List.countP_cons, h1, h2, h3]

theorem pyClassBlock_countP_fun (i : Nat) (bug : Bool) :
    (pyClassBlock i bug).countP isPyFunDef = 0 := by
  have h1 : isPyFunDef ("class Component" ++ (toString i ++ ":")) = false := by
    refine startsWithStr_false_of_head _ _ 'd' 'c' rfl ?_ (by decide)
    rw [String.data_append]; rfl
  have h2 : isPyFunDef ("    \"\"\"Class for component " ++ (toString i ++ "\"\"\"")) = false := by
    refine startsWithStr_false_of_head _ _ 'd' ' ' rfl ?_ (by decide)
    rw [String.data_append]; rfl
  have h3 : (pyClassBlockRest bug).countP isPyFunDef = 0 := by
    cases bug <;> decide
  unfold pyClassBlock
  simp [List.countP_cons, h1, h2, h3]

theorem pyFunctionBlock_countP_fun (i : Nat) :
    (pyFunctionBlock i).countP isPyFunDef = 1 := by
  have h1 : isPyFunDef ("def function_" ++ (toString i ++ "(param1: str, param2: int = 0) -> dict:")) = true :=
    startsWithStr_append _ _
  have h2 : isPyFunDef ("    \"\"\"Function " ++ (toString i ++ " description\"\"\"")) = false := by
    refine startsWithStr_false_of_head _ _ 'd' ' ' rfl ?_ (by decide)
    rw [String.data_append]; rfl
  unfold pyFunctionBlock
  simp [List.countP_cons, h1, h2]
  decide

theorem pyFunctionBlock_countP_class (i : Nat) :
    (pyFunctionBlock i).countP isPyClassDef = 0 := by
  have h1 : isPyClassDef ("def function_" ++ (toString i ++ "(param1: str, param2: int = 0) -> dict:")) = false := by
    refine startsWithStr_false_of_head _ _ 'c' 'd' rfl ?_ (by decide)
    rw [String.data_append]; rfl
  have h2 : isPyClassDef ("    \"\"\"Function " ++ (toString i ++ " description\"\"\"")) = false := by
    refine startsWithStr_false_of_head _ _ 'c' ' ' rfl ?_ (by decide)
    rw [String.data_append]; rfl
  unfold pyFunctionBlock
  simp [List.countP_cons, h1, h2]
  decide

theorem pyHeader_countP_class (ct : String) : (pyHeader ct).countP isPyClassDef = 0 := by
  have h2 : isPyClassDef ("Module for " ++ ct) = false := by
    refine startsWithStr_false_of_head _ _ 'c' 'M' rfl ?_ (by decide)
    rw [String.data_append]; rfl
  unfold pyHeader
  simp [List.countP_cons, h2]
  decide

theorem pyHeader_countP_fun (ct : String) : (pyHeader ct).countP isPyFunDef = 0 := by
  have h2 : isPyFunDef ("Module for " ++ ct) = false := by
    refine startsWithStr_false_of_head _ _ 'd' 'M' rfl ?_ (by decide)
    rw [String.data_append]; rfl
  unfold pyHeader
  simp [List.countP_cons, h2]
  decide

theorem generate_python_code_count_class (lines : Nat) (ct : String) (bug : Nat → Bool) :
    (generate_python_code lines ct bug).countP isPyClassDef = max 1 (lines / 50) := by
  unfold generate_python_code
  rw [List.countP_append, List.countP_append, pyHeader_countP_class,
    countP_flatMap_range _ _ 1 (fun i => pyClassBlock_countP_class i (bug i)),
    countP_flatMap_range _ _ 0 pyFunctionBlock_countP_class]
  simp

theorem generate_python_code_count_fun (lines : Nat) (ct : String) (bug : Nat → Bool) :
    (generate_python_code lines ct bug).countP isPyFunDef = max 1 (lines / 30) := by
  unfold generate_python_code
  rw [List.countP_append, List.countP_append, pyHeader_countP_fun,
    countP_flatMap_range _ _ 0 (fun i => pyClassBlock_countP_fun i (bug i)),
    countP_flatMap_range _ _ 1 pyFunctionBlock_countP_fun]
  simp

theorem jsBlock_countP_class (is_ts : Bool) (i : Nat) (bug : Bool) :
    ((if is_ts then jsClassHeadTs i else jsClassHeadJs i) ++ jsClassBlockRest bug).countP
      isJsClassDef = 1 := by
  have hrest : (jsClassBlockRest bug).countP isJsClassDef = 0 := by
    cases bug <;> decide
  rw [List.countP_append, hrest]
  cases is_ts with
  | false =>
    have h1 : isJsClassDef ("class Service" ++ (toString i ++ " \x7b")) = true := by
      unfold isJsClassDef
      rw [startsWithStr_append]
      rfl
    simp [jsClassHeadJs, List.countP_cons, h1]
    decide
  | true =>
    have h1 : isJsClassDef ("export class Service" ++ (toString i ++ " implements Component \x7b")) = true := by
      unfold isJsClassDef
      rw [startsWithStr_append]
      simp
    have h0 : startsWithStr "class Service" ("export class Service" ++ (toString i ++ " implements Component \x7b")) = false := by
      refine startsWithStr_false_of_head _ _ 'c' 'e' rfl ?_ (by decide)
      rw [String.data_append]; rfl
    simp [jsClassHeadTs, List.countP_cons, h1]
    decide

theorem generate_js_code_count_class (is_ts : Bool) (lines : Nat) (bug : Nat → Bool) :
    (generate_js_code is_ts lines bug).countP isJsClassDef = max 1 (lines / 50) := by
  unfold generate_js_code
  rw [List.countP_append,
    countP_flatMap_range _ _ 1 (fun i => jsBlock_countP_class is_ts i (bug i))]
  have hh : (jsHeader is_ts).countP isJsClassDef = 0 := by
    cases is_ts <;> decide
  rw [hh]
  simp

theorem generate_java_code_count_class (lines : Nat) (ct : String) :
    (generate_java_code lines ct).countP isJavaClassDef = 1 := rfl

/-! ## Helper lemmas: the commit-scheduling loop -/

theorem mem_of_mem_getLast {α : Type} {l : List α} {x : α} (h : x ∈ l.getLast?) : x ∈ l := by
  rcases List.mem_getLast?_eq_getLast h with ⟨hne, rfl⟩
  exact List.getLast_mem hne

theorem slice_not_empty (l : List String) (fpc fi : Nat) (hfpc : 1 ≤ fpc)
    (hfi : fi < l.length) : ((l.drop fi).take fpc).isEmpty = false := by
  rcases hx : (l.drop fi).take fpc with _ | ⟨a, t⟩
  · exfalso
    have hlen := congrArg List.length hx
    rw [List.length_take, List.length_drop] at hlen
    simp at hlen
    omega
  · rfl

theorem scheduleAux_isSome (l : List String) (nc fpc : Nat)
    (contribs : List (String × String)) (dr : Draws) (hfpc : 1 ≤ fpc) :
    ∀ fuel k fi cd cs, l.length ≤ fi + fuel →
      (scheduleAux l nc fpc contribs dr fuel k fi cd cs).isSome = true := by
  intro fuel
  induction fuel with
  | zero =>
    intro k fi cd cs hle
    simp only [scheduleAux]
    have hg : ¬ (fi < l.length ∧ cs.length < nc) := by omega
    rw [if_neg hg]
    rfl
  | succ m ih =>
    intro k fi cd cs hle
    simp only [scheduleAux]
    split
    case isTrue hg =>
      split
      case isTrue hemp =>
        rw [slice_not_empty l fpc fi hfpc hg.1] at hemp
        exact absurd hemp (by simp)
      case isFalse hemp =>
        exact ih _ _ _ _ (by omega)
    case isFalse hg => rfl

theorem scheduleAux_prefix (l : List String) (nc fpc : Nat)
    (contribs : List (String × String)) (dr : Draws) :
    ∀ fuel k fi cd cs r,
      scheduleAux l nc fpc contribs dr fuel k fi cd cs = some r → cs <+: r := by
  intro fuel
  induction fuel with
  | zero =>
    intro k fi cd cs r h
    simp only [scheduleAux] at h
    split at h
    · exact absurd h (by simp)
    · exact Option.some.inj h ▸ List.prefix_rfl
  | succ m ih =>
    intro k fi cd cs r h
    simp only [scheduleAux] at h
    split at h
    · split at h
      · exact ih _ _ _ _ _ h
      · exact List.IsPrefix.trans (List.prefix_append cs _) (ih _ _ _ _ _ h)
    · exact Option.some.inj h ▸ List.prefix_rfl

theorem scheduleAux_length_le (l : List String) (nc fpc : Nat)
    (contribs : List (String × String)) (dr : Draws) :
    ∀ fuel k fi cd cs r,
      scheduleAux l nc fpc contribs dr fuel k fi cd cs = some r →
      cs.length ≤ nc → r.length ≤ nc := by
  intro fuel
  induction fuel with
  | zero =>
    intro k fi cd cs r h hcs
    simp only [scheduleAux] at h
    split at h
    · exact absurd h (by simp)
    · exact Option.some.inj h ▸ hcs
  | succ m ih =>
    intro k fi cd cs r h hcs
    simp only [scheduleAux] at h
    split at h
    case isTrue hg =>
      split at h
      · exact ih _ _ _ _ _ h hcs
      · refine ih _ _ _ _ _ h ?_
        rw [List.length_append]
        simp only [List.length_cons, List.length_nil]
        omega
    case isFalse hg => exact Option.some.inj h ▸ hcs

theorem scheduleAux_chain (l : List String) (nc fpc : Nat)
    (contribs : List (String × String)) (dr : Draws) :
    ∀ fuel k fi cd cs r,
      scheduleAux l nc fpc contribs dr fuel k fi cd cs = some r →
      List.Chain' (fun a b => a.date < b.date) cs →
      (∀ c ∈ cs, c.date < cd) →
      List.Chain' (fun a b => a.date < b.date) r := by
  intro fuel
  induction fuel with
  | zero =>
    intro k fi cd cs r h hch _
    simp only [scheduleAux] at h
    split at h
    · exact absurd h (by simp)
    · exact Option.some.inj h ▸ hch
  | succ m ih =>
    intro k fi cd cs r h hch hlt
    simp only [scheduleAux] at h
    split at h
    case isTrue hg =>
      split at h
      · exact ih _ _ _ _ _ h hch hlt
      · refine ih _ _ _ _ _ h ?_ ?_
        · refine List.Chain'.append hch (List.chain'_singleton _) ?_
          intro x hx y hy
          simp at hy
          subst hy
          exact hlt x (mem_of_mem_getLast hx)
        · intro c hc
          rcases List.mem_append.mp hc with hc | hc
          · have := hlt c hc
            have h48 : 1 ≤ randint 1 48 (dr.hourDraw k) := by
              unfold randint; omega
            omega
          · simp at hc
            subst hc
            have h48 : 1 ≤ randint 1 48 (dr.hourDraw k) := by
              unfold randint; omega
            show cd < cd + randint 1 48 (dr.hourDraw k)
            omega
    case isFalse hg => exact Option.some.inj h ▸ hch

theorem scheduleAux_batch (l : List String) (nc fpc : Nat)
    (contribs : List (String × String)) (dr : Draws) :
    ∀ fuel k fi cd cs r,
      scheduleAux l nc fpc contribs dr fuel k fi cd cs = some r →
      cs ≠ [] →
      (cs.drop 1).flatMap Commit.files = l.take fi →
      ∃ m, (r.drop 1).flatMap Commit.files = l.take m ∧
        (r.length < nc → l.length ≤ m) := by
  intro fuel
  induction fuel with
  | zero =>
    intro k fi cd cs r h hne hinv
    simp only [scheduleAux] at h
    split at h
    · exact absurd h (by simp)
    case isFalse hg =>
      obtain rfl := Option.some.inj h
      refine ⟨fi, hinv, ?_⟩
      intro hlen
      omega
  | succ m ih =>
    intro k fi cd cs r h hne hinv
    simp only [scheduleAux] at h
    split at h
    case isTrue hg =>
      split at h
      · exact ih _ _ _ _ _ h hne hinv
      · refine ih _ _ _ _ _ h (by simp) ?_
        have h1 : 1 ≤ cs.length := List.length_pos.mpr hne
        rw [List.drop_append_of_le_length h1, List.flatMap_append, hinv]
        have hfiles : ([mkBatchCommit l fpc contribs dr k fi cd].flatMap Commit.files) =
            (l.drop fi).take fpc := by
          simp [mkBatchCommit]
        rw [hfiles, ← List.take_add]
    case isFalse hg =>
      obtain rfl := Option.some.inj h
      refine ⟨fi, hinv, ?_⟩
      intro hlen
      omega

theorem create_commit_history_spec (now : Nat) (files : List String) (nc : Nat)
    (contribs : List (String × String)) (dr : Draws) :
    ∃ r, scheduleAux files nc (files_per_commit files.length nc) contribs dr
        files.length 0 0 (now - 365 * 24 + 24) [bootstrap_commit now contribs] = some r ∧
      create_commit_history now files nc contribs dr = r := by
  have hfpc : 1 ≤ files_per_commit files.length nc := le_max_left _ _
  have hsome := scheduleAux_isSome files nc (files_per_commit files.length nc) contribs dr
    hfpc files.length 0 0 (now - 365 * 24 + 24) [bootstrap_commit now contribs] (by omega)
  rcases Option.isSome_iff_exists.mp hsome with ⟨r, hr⟩
  refine ⟨r, hr, ?_⟩
  unfold create_commit_history
  rw [hr]
  rfl

/-! ## Claim theorems -/

/-- C1 (counterexample): the exactly-once coverage invariant is false on the
code.  On a walked manifest containing `README.md` (which `os.walk` collects,
since only names starting with `.git` are excluded), `README.md` is staged
both by the bootstrap commit and by its batch commit, so it does not appear
in exactly one commit of the schedule. -/
theorem c1_union_exactly_once_counterexample :
    ¬ (∀ f ∈ cexFiles,
        (create_commit_history 8760 cexFiles 100 cexContribs zeroDraws).countP
          (fun c => c.files.contains f) = 1) := by
  decide

/-- C1 (amended): the batch commits (everything after the bootstrap commit)
stage consecutive, pairwise-disjoint slices of the walked file list: their
concatenated file sets are a prefix of that list, and equal the whole list
whenever the commit count stays below the target commit count. -/
theorem c1_batch_commits_partition (now : Nat) (files : List String) (nc : Nat)
    (contribs : List (String × String)) (dr : Draws) :
    ((create_commit_history now files nc contribs dr).drop 1).flatMap Commit.files <+: files ∧
    ((create_commit_history now files nc contribs dr).length < nc →
      ((create_commit_history now files nc contribs dr).drop 1).flatMap Commit.files = files) := by
  obtain ⟨r, hr, hh⟩ := create_commit_history_spec now files nc contribs dr
  obtain ⟨m, hm1, hm2⟩ := scheduleAux_batch files nc _ contribs dr _ _ _ _ _ _ hr
    (List.cons_ne_nil _ _) (by simp)
  rw [hh]
  constructor
  · rw [hm1]
    exact List.take_prefix m files
  · intro hlen
    rw [hm1, List.take_of_length_le (hm2 hlen)]

/-- C1 (witness for the amended claim): on the forty-file manifest with
target commit count 100 the schedule stays below the target, so the batch
commits cover the walked manifest exactly. -/
theorem c1_batch_commits_partition_witness :
    ((create_commit_history 8760 c6_files 100 cexContribs zeroDraws).drop 1).flatMap
      Commit.files = c6_files :=
  (c1_batch_commits_partition 8760 c6_files 100 cexContribs zeroDraws).2 (by decide)

/-- C2: commit timestamps strictly increase from each commit to the next
(hence the first commit is strictly the earliest of the whole sequence),
and the bootstrap commit timestamp is exactly the generation-time clock
minus 365 days. -/
theorem c2_timestamps_strictly_increasing (now : Nat) (files : List String) (nc : Nat)
    (contribs : List (String × String)) (dr : Draws) :
    List.Chain' (fun a b => a.date < b.date) (create_commit_history now files nc contribs dr) ∧
    List.Pairwise (fun a b => a.date < b.date) (create_commit_history now files nc contribs dr) ∧
    ((create_commit_history now files nc contribs dr).map Commit.date).head? =
      some (now - 365 * 24) := by
  obtain ⟨r, hr, hh⟩ := create_commit_history_spec now files nc contribs dr
  have hchain : List.Chain' (fun a b => a.date < b.date) r := by
    refine scheduleAux_chain files nc _ contribs dr _ _ _ _ _ _ hr
      (List.chain'_singleton _) ?_
    intro c hc
    simp at hc
    subst hc
    show (bootstrap_commit now contribs).date < now - 365 * 24 + 24
    simp [bootstrap_commit]
  have hpair : List.Pairwise (fun a b => a.date < b.date) r := by
    have h1 : List.Chain' (· < ·) (r.map Commit.date) := (List.chain'_map _).mpr hchain
    exact (List.pairwise_map).mp (List.chain'_iff_pairwise.mp h1)
  have hhead : (r.map Commit.date).head? = some (now - 365 * 24) := by
    rcases scheduleAux_prefix files nc _ contribs dr _ _ _ _ _ _ hr with ⟨t, ht⟩
    rw [← ht]
    rfl
  rw [hh]
  exact ⟨hchain, hpair, hhead⟩

/-- C3 (counterexample): the per-language unit-count formula is false on the
code.  The Java generator emits a fixed single-class file, so at a line
budget of 100 it contains one class definition, not `max 1 (100 / 50) = 2`. -/
theorem c3_unit_count_counterexample :
    ¬ ((generate_java_code 100 "api").countP isJavaClassDef = max 1 (100 / 50)) := by
  decide

/-- C3 (amended): the unit-count formulas hold for the languages whose
generators scale with the line budget — Python (`max 1 (lines / 50)`
classes and `max 1 (lines / 30)` free functions) and JavaScript/TypeScript
(`max 1 (lines / 50)` classes, no free functions) — while the Java
generator always emits exactly one class regardless of the line budget. -/
theorem c3_unit_counts_amended (lines : Nat) (ct : String) (bug : Nat → Bool) (is_ts : Bool) :
    (generate_python_code lines ct bug).countP isPyClassDef = max 1 (lines / 50) ∧
    (generate_python_code lines ct bug).countP isPyFunDef = max 1 (lines / 30) ∧
    (generate_js_code is_ts lines bug).countP isJsClassDef = max 1 (lines / 50) ∧
    (generate_java_code lines ct).countP isJavaClassDef = 1 :=
  ⟨generate_python_code_count_class lines ct bug,
   generate_python_code_count_fun lines ct bug,
   generate_js_code_count_class is_ts lines bug,
   generate_java_code_count_class lines ct⟩

/-- C4 (counterexample): the dispatch rule is false as stated.  For the
`libraries_web` category with the `http-client` template, the category
contains `"web"`, yet `_generate_structure` selects the library archetype,
because the first rule tests only the template name. -/
theorem c4_web_dispatch_counterexample :
    ¬ ((containsStr "http-client" "web" || containsStr "http-client" "framework" ||
        containsStr "libraries_web" "web" || containsStr "libraries_web" "framework") = true →
       generate_structure "libraries_web" "http-client" = Archetype.web) := by
  decide

/-- C4 (amended): the web-app archetype is selected whenever the TEMPLATE
name contains `"web"` or `"framework"`, and that rule has the highest
priority: it wins for every category string, including categories that
would match the microservice, cli, lib, mobile, game or data rules. -/
theorem c4_web_dispatch_amended (category template : String)
    (h : containsStr template "web" = true ∨ containsStr template "framework" = true) :
    generate_structure category template = Archetype.web := by
  unfold generate_structure
  rcases h with h | h <;> simp [h]

/-- C4 (witness): a template containing `"web"` dispatches to the web-app
archetype even under a category that matches the microservice rule. -/
theorem c4_web_dispatch_amended_witness :
    generate_structure "microservices_small" "web-framework" = Archetype.web :=
  c4_web_dispatch_amended "microservices_small" "web-framework" (Or.inl (by decide))

/-- C5 (counterexample): structure generation is not purely structural.
The effect trace of the CLI structure builder contains file writes (performed by
`_create_cli_files`, which `_generate_cli_structure` itself invokes), so not
every effect is a directory creation. -/
theorem c5_structure_only_mkdir_counterexample :
    ¬ (∀ op ∈ generate_cli_structure ".py" 0, op.isMkdir = true) := by
  decide

/-- C5 (amended): the structure step both creates directories and writes
files.  For the CLI archetype it creates exactly its four directories (and
creates them first), then writes 4 fixed code files plus `randint(10, 30)`
test files. -/
theorem c5_structure_writes_files_amended (ext : String) (d : Nat) :
    (generate_cli_structure ext d).countP FsOp.isMkdir = 4 ∧
    (generate_cli_structure ext d).countP (fun op => ! op.isMkdir) = 4 + randint 10 30 d ∧
    (generate_cli_structure ext d).take 4 =
      [FsOp.mkdir "cmd", FsOp.mkdir "internal", FsOp.mkdir "pkg", FsOp.mkdir "tests"] := by
  refine ⟨?_, ?_, rfl⟩
  · unfold generate_cli_structure create_cli_files
    rw [List.countP_append, List.countP_append]
    have h0 : ((List.range (randint 10 30 d)).map
        (fun i => FsOp.write ("tests/test" ++ (toString i ++ ext)))).countP FsOp.isMkdir = 0 := by
      apply List.countP_eq_zero.mpr
      intro a ha
      rcases List.mem_map.mp ha with ⟨i, _, rfl⟩
      simp [FsOp.isMkdir]
    rw [h0]
    simp [List.countP_cons, FsOp.isMkdir]
  · unfold generate_cli_structure create_cli_files
    rw [List.countP_append, List.countP_append]
    have h0 : ((List.range (randint 10 30 d)).map
        (fun i => FsOp.write ("tests/test" ++ (toString i ++ ext)))).countP
        (fun op => ! op.isMkdir) = randint 10 30 d := by
      rw [List.countP_eq_length.mpr]
      · simp
      · intro a ha
        rcases List.mem_map.mp ha with ⟨i, _, rfl⟩
        simp [FsOp.isMkdir]
    rw [h0]
    simp [List.countP_cons, FsOp.isMkdir]

/-- C6: the batch size equals `max 1 (total_files / (num_commits − 10))`
when the target commit count exceeds 10, else 1; and the concrete scenario:
with a 40-file manifest and target commit count 100 the batch size is 1 and
the schedule is the bootstrap commit plus 40 single-file batch commits,
terminating by file exhaustion at 41 commits, strictly below the target. -/
theorem c6_batch_size_and_scenario :
    (∀ total_files num_commits : Nat,
      files_per_commit total_files num_commits =
        if 10 < num_commits then max 1 (total_files / (num_commits - 10)) else 1) ∧
    files_per_commit c6_files.length 100 = 1 ∧
    (create_commit_history 8760 c6_files 100 cexContribs zeroDraws).length = 41 ∧
    ((create_commit_history 8760 c6_files 100 cexContribs zeroDraws).head? =
      some (bootstrap_commit 8760 cexContribs)) ∧
    ((create_commit_history 8760 c6_files 100 cexContribs zeroDraws).drop 1).all
      (fun c => c.files.length == 1) = true ∧
    (create_commit_history 8760 c6_files 100 cexContribs zeroDraws).length < 100 := by
  refine ⟨?_, by decide⟩
  intro tf nc
  unfold files_per_commit
  by_cases h : 10 < nc
  · rw [if_pos h, if_pos h]
  · rw [if_neg h, if_neg h]
    rfl

/-- C7: the commit sequence always contains the bootstrap commit (length at
least 1) and its length never exceeds the target commit count of the RepoSpec
(which is at least 1 for every selected RepoSpec). -/
theorem c7_commit_count_bounds (now : Nat) (files : List String) (nc : Nat)
    (contribs : List (String × String)) (dr : Draws) (h : 1 ≤ nc) :
    1 ≤ (create_commit_history now files nc contribs dr).length ∧
    (create_commit_history now files nc contribs dr).length ≤ nc := by
  obtain ⟨r, hr, hh⟩ := create_commit_history_spec now files nc contribs dr
  rw [hh]
  constructor
  · have hp := scheduleAux_prefix files nc _ contribs dr _ _ _ _ _ _ hr
    have := hp.length_le
    simpa using this
  · refine scheduleAux_length_le files nc _ contribs dr _ _ _ _ _ _ hr ?_
    simpa using h

/-- C7 (witness): the bounds at a concrete schedule. -/
theorem c7_commit_count_bounds_witness :
    1 ≤ (create_commit_history 8760 cexFiles 100 cexContribs zeroDraws).length ∧
    (create_commit_history 8760 cexFiles 100 cexContribs zeroDraws).length ≤ 100 :=
  c7_commit_count_bounds 8760 cexFiles 100 cexContribs zeroDraws (by decide)

/-- C9: every commit count selected by `random.randint(100, 500)` lies in
`[100, 500]`, hence is greater than 10, the batch-size divisor
`num_commits − 10` is positive (no division by zero), and the batch-size
computation always takes its division branch (the `else 1` branch is
unreachable for selected RepoSpecs). -/
theorem c9_commit_count_range (draw total_files : Nat) :
    100 ≤ select_num_commits draw ∧ select_num_commits draw ≤ 500 ∧
    10 < select_num_commits draw ∧ 0 < select_num_commits draw - 10 ∧
    files_per_commit total_files (select_num_commits draw) =
      max 1 (total_files / (select_num_commits draw - 10)) := by
  have h : draw % (500 - 100 + 1) < 500 - 100 + 1 := Nat.mod_lt _ (by omega)
  unfold select_num_commits randint
  refine ⟨by omega, by omega, by omega, by omega, ?_⟩
  unfold files_per_commit
  rw [if_pos (by omega : 10 < 100 + draw % (500 - 100 + 1))]

/-- C10: the commit-scheduling loop terminates.  The batch size is at least
1, so the slice taken at any in-range file index is non-empty and the file
index strictly increases; fuel equal to the file-list length therefore
suffices for the loop (started as `_create_commit_history` starts it) to
reach a state where its guard is false. -/
theorem c10_schedule_loop_terminates (now : Nat) (files : List String) (nc : Nat)
    (contribs : List (String × String)) (dr : Draws) :
    1 ≤ files_per_commit files.length nc ∧
    (scheduleAux files nc (files_per_commit files.length nc) contribs dr
        files.length 0 0 (now - 365 * 24 + 24) [bootstrap_commit now contribs]).isSome = true :=
  ⟨le_max_left _ _,
   scheduleAux_isSome files nc (files_per_commit files.length nc) contribs dr
     (le_max_left _ _) files.length 0 0 (now - 365 * 24 + 24)
     [bootstrap_commit now contribs] (by omega)⟩

/-! ## Helper lemmas: the orchestrator loop -/

theorem run_category_shape (fails : Nat → Bool) (cat : String) (tmps : List String) :
    ∀ n i rid tot acc, ∃ m,
      ((run_category fails cat tmps n i rid tot acc).1).map Attempt.repoId =
        acc.map Attempt.repoId ++ List.range' rid m ∧
      (run_category fails cat tmps n i rid tot acc).2.1 = rid + m := by
  intro n
  induction n with
  | zero =>
    intro i rid tot acc
    exact ⟨0, by simp [run_category], by simp [run_category]⟩
  | succ k ih =>
    intro i rid tot acc
    simp only [run_category]
    split
    case isTrue hf =>
      obtain ⟨m, h1, h2⟩ :=
        ih (i + 1) (rid + 1) tot (acc ++ [⟨rid, cat, tmps.getD (i % tmps.length) "", false⟩])
      refine ⟨m + 1, ?_, by omega⟩
      rw [h1, List.map_append]
      simp only [List.map_cons, List.map_nil]
      rw [List.append_assoc, List.range'_succ]
      rfl
    case isFalse hf =>
      split
      case isTrue hb =>
        refine ⟨1, ?_, rfl⟩
        rw [List.map_append]
        rfl
      case isFalse hb =>
        obtain ⟨m, h1, h2⟩ :=
          ih (i + 1) (rid + 1) (tot + 1)
            (acc ++ [⟨rid, cat, tmps.getD (i % tmps.length) "", true⟩])
        refine ⟨m + 1, ?_, by omega⟩
        rw [h1, List.map_append]
        simp only [List.map_cons, List.map_nil]
        rw [List.append_assoc, List.range'_succ]
        rfl

theorem run_all_shape (fails : Nat → Bool) :
    ∀ cats rid tot acc, ∃ m,
      (run_all fails cats rid tot acc).map Attempt.repoId =
        acc.map Attempt.repoId ++ List.range' rid m := by
  intro cats
  induction cats with
  | nil =>
    intro rid tot acc
    exact ⟨0, by simp [run_all]⟩
  | cons c rest ih =>
    intro rid tot acc
    obtain ⟨c1, c2, c3⟩ := c
    simp only [run_all]
    split
    case isTrue hb =>
      obtain ⟨m, h1, _⟩ := run_category_shape fails c1 c3 c2 0 rid tot acc
      exact ⟨m, h1⟩
    case isFalse hb =>
      obtain ⟨m1, h1, h2⟩ := run_category_shape fails c1 c3 c2 0 rid tot acc
      obtain ⟨m2, h3⟩ := ih (run_category fails c1 c3 c2 0 rid tot acc).2.1
        (run_category fails c1 c3 c2 0 rid tot acc).2.2
        (run_category fails c1 c3 c2 0 rid tot acc).1
      refine ⟨m1 + m2, ?_⟩
      rw [h3, h1, h2, List.append_assoc, List.range'_append_1, Nat.add_comm m2 m1]

theorem run_category_ok (fails : Nat → Bool) (cat : String) (tmps : List String) :
    ∀ n i rid tot acc,
      acc.all (fun a => a.ok == ! fails a.repoId) = true →
      ((run_category fails cat tmps n i rid tot acc).1).all
        (fun a => a.ok == ! fails a.repoId) = true := by
  intro n
  induction n with
  | zero =>
    intro i rid tot acc h
    simpa [run_category] using h
  | succ k ih =>
    intro i rid tot acc h
    simp only [run_category]
    split
    case isTrue hf =>
      apply ih
      rw [List.all_append, h]
      simp [hf]
    case isFalse hf =>
      rw [Bool.not_eq_true] at hf
      split
      case isTrue hb =>
        rw [List.all_append, h]
        simp [hf]
      case isFalse hb =>
        apply ih
        rw [List.all_append, h]
        simp [hf]

theorem run_all_ok (fails : Nat → Bool) :
    ∀ cats rid tot acc,
      acc.all (fun a => a.ok == ! fails a.repoId) = true →
      (run_all fails cats rid tot acc).all (fun a => a.ok == ! fails a.repoId) = true := by
  intro cats
  induction cats with
  | nil =>
    intro rid tot acc h
    simpa [run_all] using h
  | cons c rest ih =>
    intro rid tot acc h
    obtain ⟨c1, c2, c3⟩ := c
    simp only [run_all]
    split
    case isTrue hb => exact run_category_ok fails c1 c3 c2 0 rid tot acc h
    case isFalse hb => exact ih _ _ _ (run_category_ok fails c1 c3 c2 0 rid tot acc h)

theorem run_category_allfail (cat : String) (tmps : List String) :
    ∀ n i rid tot acc,
      (run_category (fun _ => true) cat tmps n i rid tot acc).1.length = acc.length + n ∧
      (run_category (fun _ => true) cat tmps n i rid tot acc).2.2 = tot := by
  intro n
  induction n with
  | zero =>
    intro i rid tot acc
    simp [run_category]
  | succ k ih =>
    intro i rid tot acc
    simp only [run_category]
    rw [if_pos trivial]
    obtain ⟨h1, h2⟩ :=
      ih (i + 1) (rid + 1) tot (acc ++ [⟨rid, cat, tmps.getD (i % tmps.length) "", false⟩])
    refine ⟨?_, h2⟩
    rw [h1, List.length_append]
    simp only [List.length_cons, List.length_nil]
    omega

theorem run_all_allfail :
    ∀ (cats : List (String × Nat × List String)) rid tot acc, tot < 1000 →
      (run_all (fun _ => true) cats rid tot acc).length =
        acc.length + (cats.map (fun c => c.2.1)).sum := by
  intro cats
  induction cats with
  | nil =>
    intro rid tot acc _
    simp [run_all]
  | cons c rest ih =>
    intro rid tot acc htot
    obtain ⟨c1, c2, c3⟩ := c
    simp only [run_all]
    obtain ⟨h1, h2⟩ := run_category_allfail c1 c3 c2 0 rid tot acc
    rw [h2, if_neg (by omega : ¬ 1000 ≤ tot), ih _ _ _ (h2 ▸ htot), h1]
    simp only [List.map_cons, List.sum_cons]
    omega

/-- C8: per-repository failures are isolated at the orchestrator boundary.
For every failure oracle: the sequence of attempted repository ids is
exactly the consecutive range starting at 5001 (the global index advances
on success and on failure alike, so no identity is ever reused); every
recorded attempt carries the success flag dictated by the oracle (a caught
failure is logged as an unsuccessful attempt rather than halting the run);
and even when every single repository generation raises, the run still
attempts every quota slot of every category instead of aborting. -/
theorem c8_orchestrator_failure_isolation (fails : Nat → Bool)
    (cats : List (String × Nat × List String)) :
    (main_run fails cats).map Attempt.repoId =
      List.range' 5001 (main_run fails cats).length ∧
    (main_run fails cats).all (fun a => a.ok == ! fails a.repoId) = true ∧
    (main_run (fun _ => true) cats).length = (cats.map (fun c => c.2.1)).sum := by
  refine ⟨?_, ?_, ?_⟩
  · unfold main_run
    obtain ⟨m, hm⟩ := run_all_shape fails cats 5001 0 []
    simp only [List.map_nil, List.nil_append] at hm
    have hlen : (run_all fails cats 5001 0 []).length = m := by
      have h2 := congrArg List.length hm
      rw [List.length_map, List.length_range'] at h2
      exact h2
    rw [hlen]
    exact hm
  · exact run_all_ok fails cats 5001 0 [] rfl
  · unfold main_run
    have := run_all_allfail cats 5001 0 [] (by omega)
    simpa using this
